import Mathlib

/-!
Verification of the pgmcp server (server/main.go) against its natural-language
specification.  The Go functions relevant to the claims are shallowly embedded
as executable Lean definitions; machine integers are modelled as `Int`
(overflow is irrelevant at the sizes involved), Go strings as Lean `String` /
`List Char`, and fallible Go functions returning `error` as `Option`/`Except`.
Case folding is modelled over ASCII (the SQL keywords and patterns involved are
all ASCII).
-/

namespace Pgmcp

set_option maxRecDepth 4000000

/-- ASCII word character, as used by Go `regexp`'s `\b` word boundary:
`[0-9A-Za-z_]`. -/
def isWordChar (c : Char) : Bool :=
  (('a' ≤ c && c ≤ 'z') || ('A' ≤ c && c ≤ 'Z') || ('0' ≤ c && c ≤ '9') || c = '_')

/-- The set of code points trimmed by Go `strings.TrimSpace`
(`unicode.IsSpace`: the White_Space property). -/
def goIsSpace (c : Char) : Bool :=
  c = ' ' || c = '\t' || c = '\n' || c = '\x0b' || c = '\x0c' || c = '\r' ||
  c = '\x85' || c = '\xa0' || c = '\u1680' ||
  ('\u2000' ≤ c && c ≤ '\u200a') ||
  c = '\u2028' || c = '\u2029' || c = '\u202f' || c = '\u205f' || c = '\u3000'

/-- Whitespace class `\s` of Go `regexp`: `[\t\n\f\r ]`. -/
def goRegexSpace (c : Char) : Bool :=
  c = '\t' || c = '\n' || c = '\x0c' || c = '\r' || c = ' '

/-- Go `strings.TrimSpace` on the character sequence of a string. -/
def goTrimSpace (s : List Char) : List Char :=
  ((s.dropWhile goIsSpace).reverse.dropWhile goIsSpace).reverse

/-- Worker for `countNonOverlap`; `fuel` bounds the number of scanning steps
(structural recursion so that the function reduces inside the kernel). -/
def countNonOverlapAux (pat : List Char) : List Char → Nat → Nat
  | _, 0 => 0
  | s, fuel + 1 =>
    match s with
    | [] => 0
    | c :: rest =>
      if (c :: rest).take pat.length = pat ∧ 0 < pat.length then
        1 + countNonOverlapAux pat (rest.drop (pat.length - 1)) fuel
      else
        countNonOverlapAux pat rest fuel

/-- Non-overlapping (greedy, left-to-right) occurrence count, the semantics of
Go `strings.Count` for a non-empty pattern. -/
def countNonOverlap (pat s : List Char) : Nat :=
  countNonOverlapAux pat s s.length

/-- Substring test (Go `strings.Contains`): the pattern occurs contiguously at
some position. -/
def containsSubstrB (s pat : List Char) : Bool :=
  (List.range (s.length + 1)).any fun i => (s.drop i).take pat.length == pat

/-- Whole-word match of keyword `kw` (given in lowercase) at position `i` of
`s`, case-insensitively: the characters at `i` lower to `kw` and both ends sit
on a `\b` word boundary. -/
def matchesWordAt (s : List Char) (i : Nat) (kw : List Char) : Bool :=
  (((s.drop i).take kw.length).map Char.toLower == kw) &&
  (match i with
   | 0 => true
   | j + 1 => !(isWordChar (s.getD j ' '))) &&
  (if i + kw.length < s.length then !(isWordChar (s.getD (i + kw.length) ' ')) else true)

/-- The alternation of the `mutating` regular expression in server/main.go:
`(?is)\b(INSERT|UPDATE|...|SET)\b`. -/
def mutatingKeywords : List String :=
  ["insert", "update", "delete", "upsert", "merge", "alter", "drop",
   "truncate", "vacuum", "reindex", "grant", "revoke", "create", "copy",
   "rollback", "commit", "begin", "start", "savepoint", "release", "set"]

/-- `mutating.MatchString sql`: some mutating keyword occurs somewhere in `s`
as a whole word, case-insensitively. -/
def containsMutatingB (s : List Char) : Bool :=
  (List.range (s.length + 1)).any fun i =>
    mutatingKeywords.any fun kw => matchesWordAt s i kw.data

/-- Number of `';'` characters in `s` (Go `strings.Count(sql, ";")`;
single-character pattern, so greedy counting is plain counting). -/
def semiCount (s : List Char) : Nat := (s.filter (fun c => c = ';')).length

/-- Errors produced by `guardReadOnly`. -/
inductive GuardError where
  | writeAttempt
  | multiStatement
deriving DecidableEq

/-- Embedding of `guardReadOnly` (server/main.go): reject on the mutating
keyword regex, then reject when a semicolon is present but the last character
of the whitespace-trimmed SQL is not `';'`.  `none` means the SQL is
accepted. -/
def guardReadOnly (sql : String) : Option GuardError :=
  if containsMutatingB sql.data then some GuardError.writeAttempt
  else if 0 < semiCount sql.data ∧ (goTrimSpace sql.data).getLast? ≠ some ';' then
    some GuardError.multiStatement
  else none

/-- Lowercased character sequence (Go `strings.ToLower`, ASCII fold). -/
def lowerList (s : List Char) : List Char := s.map Char.toLower

/-- UTF-8 byte length of a character sequence, the semantics of Go's `len` on
a string. -/
def utf8Len (s : List Char) : Nat := s.foldl (fun n c => n + c.utf8Size) 0

/-- Errors produced by `sanitizeInput`. -/
inductive SanitizeError where
  | emptyInput
  | oversizeInput (n : Nat)
deriving DecidableEq

/-- `maxQueryLength` constant of server/main.go. -/
def maxQueryLength : Nat := 10000

/-- The suspicious-pattern watch list of `sanitizeInput`. -/
def suspiciousPatterns : List String :=
  ["--", "/*", "*/", "xp_", "sp_", "exec", "execute",
   "union", "information_schema", "pg_catalog"]

/-- Embedding of `sanitizeInput` (server/main.go): trim, reject empty input,
reject input longer than `maxQueryLength` bytes; the watch list only produces
log warnings.  `none` means the input is accepted. -/
def sanitizeInput (input : String) : Option SanitizeError :=
  let t := goTrimSpace input.data
  if t.isEmpty then some SanitizeError.emptyInput
  else if maxQueryLength < utf8Len t then some (SanitizeError.oversizeInput (utf8Len t))
  else none

/-- The watch-list patterns that `sanitizeInput` logs a warning for (the scan
over `suspicious` in server/main.go, on the lowercased trimmed input). -/
def sanitizeWarnings (input : String) : List String :=
  let lowerInput := lowerList (goTrimSpace input.data)
  suspiciousPatterns.filter fun p => containsSubstrB lowerInput p.data

/-- Embedding of `minNonZero` (server/main.go). -/
def minNonZero (v mx : Int) : Int :=
  if v ≤ 0 then mx
  else if v > mx then mx
  else v

/-- Errors produced by `validateSQLBasic`. -/
inductive SQLValidationError where
  | noSelect
  | unbalancedParens (opened closed : Nat)
  | duplicateSelect
deriving DecidableEq

/-- Embedding of `validateSQLBasic` (server/main.go): require a `select`
substring, balanced counts of `(` and `)`, and no `select select`
substring. -/
def validateSQLBasic (sql : String) : Option SQLValidationError :=
  let sqlLower := lowerList sql.data
  if !containsSubstrB sqlLower ("select".data) then some SQLValidationError.noSelect
  else
    let openCount := countNonOverlap ("(".data) sql.data
    let closeCount := countNonOverlap (")".data) sql.data
    if openCount ≠ closeCount then
      some (SQLValidationError.unbalancedParens openCount closeCount)
    else if containsSubstrB sqlLower ("select select".data) then
      some SQLValidationError.duplicateSelect
    else none

/-- Embedding of `isExpensiveQuery` (server/main.go). -/
def isExpensiveQuery (sql : String) : Bool :=
  let sqlLower := lowerList sql.data
  containsSubstrB sqlLower ("cross join".data) ||
  containsSubstrB sqlLower ("left join".data) ||
  2 < countNonOverlap (" join ".data) sqlLower

/-- The canonical benign replacement statement of `simplifyExpensiveQuery`. -/
def tooComplexSQL : String :=
  "SELECT 'Query too complex - please try a simpler question or ask about individual tables' AS message LIMIT 1"

/-- Embedding of `simplifyExpensiveQuery` (server/main.go); the second Go
argument `originalQuery` is unused by the source as well. -/
def simplifyExpensiveQuery (sql _originalQuery : String) : String :=
  let sqlLower := lowerList sql.data
  if containsSubstrB sqlLower ("left join".data) ||
     containsSubstrB sqlLower ("cross join".data) ||
     2 < countNonOverlap (" join ".data) sqlLower then
    tooComplexSQL
  else sql

/-- The post-generation pipeline of `handleAsk` (server/main.go, non-dry-run
path) from the generated SQL up to the call of `runStreamingQuery`: the guard
short-circuits, the expensive-query rewrite substitutes the SQL, and a
`validateSQLBasic` failure is only logged ("Continue anyway") before
execution.  `some sql` is the statement handed to the streaming executor;
`none` means the request failed before any execution. -/
def askExecutedSQL (sql : String) : Option String :=
  match guardReadOnly sql with
  | some _ => none
  | none =>
    let sql := if isExpensiveQuery sql then simplifyExpensiveQuery sql "" else sql
    let _ := validateSQLBasic sql
    some sql

/-- Match of the regular expression `(?is)\bLIMIT\s+\d+` at position `i`:
word boundary, `limit` case-insensitively, at least one `\s`, then a digit. -/
def matchesLimitAt (s : List Char) (i : Nat) : Bool :=
  (match i with
   | 0 => true
   | j + 1 => !(isWordChar (s.getD j ' '))) &&
  (((s.drop i).take 5).map Char.toLower == "limit".data) &&
  (let rest := s.drop (i + 5)
   let sp := rest.takeWhile goRegexSpace
   !sp.isEmpty && (rest.getD sp.length ' ').isDigit)

/-- `regexp.MustCompile((?is)\bLIMIT\s+\d+).MatchString sql` as used by
`runReadOnlyQuery`. -/
def hasLimitClause (sql : String) : Bool :=
  (List.range (sql.data.length + 1)).any fun i => matchesLimitAt sql.data i

/-- The SQL text submitted by `runReadOnlyQuery` (server/main.go): statements
without a `LIMIT <n>` clause are wrapped in
`WITH q AS (<sql>) SELECT * FROM q LIMIT <limit>`. -/
def limitWrapSQL (sql : String) (limit : Int) : String :=
  if hasLimitClause sql then sql
  else "WITH q AS (" ++ sql ++ ") SELECT * FROM q LIMIT " ++ toString limit

/-- Row set produced by one `runReadOnlyQuery` call, with the database
abstracted as a function from submitted SQL text to the row list it returns
(the database engine itself is external to this repository). -/
def runReadOnlyQueryRows {α : Type} (db : String → List α) (sql : String) (limit : Int) :
    List α :=
  db (limitWrapSQL sql limit)

/-- A text-typed column enumerated by the catalog query of `buildSearchSQL`:
schema, table and column name. -/
structure SearchCol where
  s : String
  t : String
  c : String
deriving DecidableEq

/-- Go `strings.ReplaceAll(q, "'", "''")`. -/
def escapeQuotes (q : String) : String :=
  String.mk (q.data.foldr (fun ch acc => if ch = '\'' then '\'' :: '\'' :: acc else ch :: acc) [])

/-- One UNION-ALL branch of the search SQL (the `fmt.Sprintf` in
`buildSearchSQL`). -/
def searchPart (c : SearchCol) (like : String) : String :=
  "SELECT '" ++ c.s ++ "." ++ c.t ++ "' AS source_table, '" ++ c.c ++
  "' AS column, LEFT(CAST(\"" ++ c.c ++ "\" AS text), 240) AS match_text FROM \"" ++
  c.s ++ "\".\"" ++ c.t ++ "\" WHERE \"" ++ c.c ++ "\" ILIKE '%" ++ like ++ "%'"

/-- Embedding of `buildSearchSQL` (server/main.go), with the catalog's column
enumeration passed in as `cols`: error when no searchable column exists,
otherwise a UNION-ALL over at most 60 columns with a final `LIMIT`. -/
def buildSearchSQL (cols : List SearchCol) (q : String) (limit : Int) :
    Except String String :=
  if cols.isEmpty then Except.error "no searchable columns"
  else
    let like := escapeQuotes q
    let parts := (cols.take 60).map fun c => searchPart c like
    Except.ok ("WITH u AS (\n" ++ String.intercalate "\nUNION ALL\n" parts ++
               "\n) SELECT * FROM u LIMIT " ++ toString limit)

/-- The pipeline of `handleSearch` (server/main.go) up to query execution:
sanitize the question, clamp the limit, build the search SQL, and hand it
directly to `runReadOnlyQuery`.  `some sql` is the statement submitted to the
executor; no admission-gate check occurs on this path. -/
def handleSearchExecutedSQL (cols : List SearchCol) (q : String) (limitIn : Int) :
    Option String :=
  match sanitizeInput q with
  | some _ => none
  | none =>
    match buildSearchSQL cols q (minNonZero limitIn 50) with
    | Except.error _ => none
    | Except.ok sql => some sql

/-- The single structured row returned by `handleAsk` when a recoverable
database error is converted into a structured success. -/
structure AskErrorRow where
  error : String
  suggestion : String
  original_sql : String
deriving DecidableEq

/-- The part of `askOutput` relevant to the error-recovery branches of
`handleAsk`. -/
structure AskRecoveryOutput where
  sql : String
  rows : List AskErrorRow
  note : String
deriving DecidableEq

/-- The column-not-found test of `handleAsk`:
`strings.Contains(err, "column") && strings.Contains(err, "does not exist")`. -/
def msgColumnNotFound (msg : String) : Bool :=
  containsSubstrB msg.data ("column".data) &&
  containsSubstrB msg.data ("does not exist".data)

/-- The relation-not-found test of `handleAsk`:
`strings.Contains(err, "relation") && strings.Contains(err, "does not exist")`. -/
def msgRelationNotFound (msg : String) : Bool :=
  containsSubstrB msg.data ("relation".data) &&
  containsSubstrB msg.data ("does not exist".data)

/-- The syntax-error test of `handleAsk`: `strings.Contains(err, "syntax error")`. -/
def msgSyntaxError (msg : String) : Bool :=
  containsSubstrB msg.data ("syntax error".data)

/-- The error-recovery logic of `handleAsk` (server/main.go) applied to the
message of a failed `runStreamingQuery` call: the three recognized classes
become structured successes, in source order, and anything else propagates as
a failure carrying the original message. -/
def askErrorRecovery (sql note msg : String) : Except String AskRecoveryOutput :=
  if msgColumnNotFound msg then
    Except.ok
      { sql := sql
        rows := [{ error := "Column not found in generated query"
                   suggestion := "Try rephrasing your question or ask about specific tables"
                   original_sql := sql }]
        note := note ++ " (query failed - column not found)" }
  else if msgRelationNotFound msg then
    Except.ok
      { sql := sql
        rows := [{ error := "Table not found in generated query"
                   suggestion := "Check available tables or rephrase your question"
                   original_sql := sql }]
        note := note ++ " (query failed - table not found)" }
  else if msgSyntaxError msg then
    Except.ok
      { sql := sql
        rows := [{ error := "SQL syntax error in generated query"
                   suggestion := "Try rephrasing your question more clearly"
                   original_sql := sql }]
        note := note ++ " (query failed - syntax error)" }
  else Except.error msg

/-- The effective page size computed at the start of `handleAsk`
(server/main.go): `pageSize := minNonZero(in.PageSize, 50)`, further clamped
by `in.MaxRows` when that is positive. -/
def effectivePageSize (maxRowsIn pageSizeIn : Int) : Int :=
  let ps := minNonZero pageSizeIn 50
  if maxRowsIn > 0 then minNonZero maxRowsIn ps else ps

/-- The row-limit ceiling `handleAsk` passes to `generateSQL` (the value
interpolated into the prompt rule "Always include an explicit LIMIT <= ..."):
the source passes `pageSize*10`, not the caller's `max_rows`. -/
def askPromptMaxRows (maxRowsIn pageSizeIn : Int) : Int :=
  effectivePageSize maxRowsIn pageSizeIn * 10

/-- One page of a streaming result (`streamPageOutput` in server/main.go). -/
structure StreamPage (α : Type) where
  page : Nat
  rows : List α
deriving DecidableEq

instance {α : Type} : Inhabited (StreamPage α) := ⟨⟨0, []⟩⟩

/-- The page-fetch loop of `runStreamingQuery`: starting at index `start`,
fetch up to `fuel` pages; each page is `LIMIT pageSize OFFSET page*pageSize`
over the (transaction-consistent) result set `allRows`, and a short page ends
the loop after being appended. -/
def fetchPages {α : Type} (allRows : List α) (pageSize : Nat) :
    Nat → Nat → List (StreamPage α)
  | _, 0 => []
  | start, fuel + 1 =>
    let pageRows := (allRows.drop (start * pageSize)).take pageSize
    { page := start, rows := pageRows } ::
      (if pageRows.length < pageSize then []
       else fetchPages allRows pageSize (start + 1) fuel)

/-- Embedding of `runStreamingQuery` (server/main.go): the database is
modelled by the full result set `allRows` of the generated SQL as observed
inside the single read-only transaction, so the COUNT query yields
`allRows.length` and each page query yields the corresponding
`LIMIT`/`OFFSET` window.  Returns the pages and the total row count. -/
def runStreamingQuery {α : Type} (allRows : List α) (maxPages pageSize : Int) :
    List (StreamPage α) × Nat :=
  let totalCount := allRows.length
  let totalPages : Int := Int.tdiv ((totalCount : Int) + pageSize - 1) pageSize
  let pagesToFetch := minNonZero maxPages totalPages
  (fetchPages allRows pageSize.toNat 0 pagesToFetch.toNat, totalCount)

/-- The parameter clamping and engine invocation of `handleStream`
(server/main.go): `maxPages := minNonZero(in.MaxPages, 10)`,
`pageSize := minNonZero(in.PageSize, 50)`. -/
def handleStreamPages {α : Type} (allRows : List α) (inMaxPages inPageSize : Int) :
    List (StreamPage α) :=
  (runStreamingQuery allRows (minNonZero inMaxPages 10) (minNonZero inPageSize 50)).1

/-! ## Helper lemmas -/

theorem utf8Len_shift (l : List Char) (a : Nat) :
    l.foldl (fun n c => n + c.utf8Size) a = a + utf8Len l := by
  induction l generalizing a with
  | nil => simp [utf8Len]
  | cons c t ih =>
    simp only [utf8Len, List.foldl_cons]
    rw [ih (a + c.utf8Size), ih (0 + c.utf8Size)]
    omega

theorem utf8Len_cons (c : Char) (l : List Char) :
    utf8Len (c :: l) = c.utf8Size + utf8Len l := by
  calc utf8Len (c :: l)
      = List.foldl (fun n ch => n + ch.utf8Size) (0 + c.utf8Size) l := rfl
    _ = (0 + c.utf8Size) + utf8Len l := utf8Len_shift l (0 + c.utf8Size)
    _ = c.utf8Size + utf8Len l := by omega

theorem utf8Len_append (l₁ l₂ : List Char) :
    utf8Len (l₁ ++ l₂) = utf8Len l₁ + utf8Len l₂ := by
  induction l₁ with
  | nil => simp [utf8Len]
  | cons c t ih =>
    rw [List.cons_append, utf8Len_cons, utf8Len_cons, ih]
    omega

theorem utf8Len_replicate (n : Nat) (c : Char) :
    utf8Len (List.replicate n c) = n * c.utf8Size := by
  induction n with
  | zero => simp [utf8Len]
  | succ m ih =>
    rw [List.replicate_succ, utf8Len_cons, ih]
    ring

theorem minNonZero_pos_le (v mx : Int) (h : 0 < mx) :
    0 < minNonZero v mx ∧ minNonZero v mx ≤ mx := by
  unfold minNonZero
  split_ifs <;> omega

theorem minNonZero_le_left (v mx : Int) (h : 0 < v) : minNonZero v mx ≤ v := by
  unfold minNonZero
  split_ifs <;> omega

theorem minNonZero_pos_eq_min (v mx : Int) (hv : 0 < v) :
    minNonZero v mx = min v mx := by
  unfold minNonZero
  rw [min_def]
  split_ifs <;> omega

/-! ## Claim C1: mutating-keyword guard -/

/-- Claim C1: every SQL string accepted by `guardReadOnly` contains no
whole-word, case-insensitive occurrence of a mutating keyword, and any SQL
containing such a keyword is rejected with an error (`WriteAttempt`). -/
theorem c1_guard_mutating (s : String) :
    (containsMutatingB s.data = true → guardReadOnly s = some GuardError.writeAttempt) ∧
    (guardReadOnly s = none → containsMutatingB s.data = false) := by
  constructor
  · intro h
    simp [guardReadOnly, h]
  · intro h
    cases hcb : containsMutatingB s.data with
    | false => rfl
    | true => simp [guardReadOnly, hcb] at h

/-- Witness for C1 at concrete inputs: a mixed-case DELETE is rejected, and an
accepted SELECT (whose text contains `insert` only as part of a longer word)
has no whole-word mutating keyword. -/
theorem c1_guard_mutating_witness :
    guardReadOnly "Delete From users Where id = 1" = some GuardError.writeAttempt ∧
    containsMutatingB ("SELECT * FROM users WHERE name = insertx").data = false := by
  constructor
  · exact (c1_guard_mutating "Delete From users Where id = 1").1 (by decide)
  · exact (c1_guard_mutating "SELECT * FROM users WHERE name = insertx").2 (by decide)

/-! ## Claim C2: multi-statement guard -/

/-- Counterexample to C2 as stated: `"SELECT 1; SELECT 2;"` contains an
internal semicolon (a semicolon at a non-final position), yet `guardReadOnly`
accepts it, because the check only requires the trimmed statement to end in
`';'` whenever any semicolon is present. -/
theorem c2_internal_semicolon_cex :
    guardReadOnly "SELECT 1; SELECT 2;" = none ∧
    ';' ∈ ("SELECT 1; SELECT 2;").data.dropLast := by
  constructor
  · decide
  · decide

/-- Claim C2 (amended): for SQL free of mutating keywords, `guardReadOnly`
accepts exactly when either no semicolon occurs at all or the last
non-whitespace character is `';'`; in particular a single trailing semicolon
is allowed, but internal semicolons are also allowed whenever a trailing
semicolon is present. -/
theorem c2_semicolon_amended (s : String) (h : containsMutatingB s.data = false) :
    guardReadOnly s = none ↔
      (semiCount s.data = 0 ∨ (goTrimSpace s.data).getLast? = some ';') := by
  unfold guardReadOnly
  rw [h]
  by_cases hp : 0 < semiCount s.data ∧ (goTrimSpace s.data).getLast? ≠ some ';'
  · simp only [Bool.false_eq_true, if_false, if_pos hp]
    constructor
    · intro hcontra
      exact absurd hcontra (by simp)
    · intro hor
      rcases hor with h0 | hlast
      · omega
      · exact absurd hlast hp.2
  · simp only [Bool.false_eq_true, if_false, if_neg hp]
    constructor
    · intro _
      by_cases h0 : semiCount s.data = 0
      · exact Or.inl h0
      · refine Or.inr ?_
        by_contra hlast
        exact hp ⟨by omega, hlast⟩
    · intro _
      trivial

/-- Witness for C2 (amended): a plain trailing semicolon is accepted. -/
theorem c2_semicolon_amended_witness :
    guardReadOnly "SELECT 1;" = none :=
  (c2_semicolon_amended "SELECT 1;" (by decide)).mpr (Or.inr (by decide))

/-! ## Claim C3: search SQL and the admission gate -/

/-- Counterexample to C3 as stated: for the search question `"insert"` the
synthesized SQL (whose `ILIKE` pattern contains the whole word `insert`) is a
string that `guardReadOnly` rejects as a write attempt, yet `handleSearch`
hands exactly this SQL to the executor — so the search SQL cannot have passed
the admission gate. -/
theorem c3_search_guard_cex :
    (handleSearchExecutedSQL [⟨"s", "t", "c"⟩] "insert" 10).isSome = true ∧
    guardReadOnly ((handleSearchExecutedSQL [⟨"s", "t", "c"⟩] "insert" 10).getD "") =
      some GuardError.writeAttempt := by
  constructor
  · decide
  · decide

/-- Claim C3 (amended): the search pipeline applies `sanitizeInput` to the
question but never applies `guardReadOnly` (or any other admission-gate
check) to the synthesized SQL: whenever sanitization passes and at least one
searchable column exists, the exact output of `buildSearchSQL` is submitted
to the executor unconditionally. -/
theorem c3_search_unguarded (cols : List SearchCol) (q : String) (limitIn : Int)
    (hq : sanitizeInput q = none) (hc : cols.isEmpty = false) :
    ∃ sql, buildSearchSQL cols q (minNonZero limitIn 50) = Except.ok sql ∧
      handleSearchExecutedSQL cols q limitIn = some sql := by
  unfold handleSearchExecutedSQL buildSearchSQL
  rw [hq, hc]
  exact ⟨_, rfl, rfl⟩

/-- Witness for C3 (amended) at a concrete invocation. -/
theorem c3_search_unguarded_witness :
    (handleSearchExecutedSQL [⟨"s", "t", "c"⟩] "hello" 10).isSome = true := by
  obtain ⟨sql, _, h2⟩ :=
    c3_search_unguarded [⟨"s", "t", "c"⟩] "hello" 10 (by decide) (by decide)
  rw [h2]
  rfl

/-! ## Claim C4: structural sanity does not short-circuit -/

/-- Counterexample to C4 as stated: `"SELECT ( FROM t"` fails
`validateSQLBasic` (unbalanced parentheses), yet the ask pipeline still hands
the statement to the executor instead of failing. -/
theorem c4_malformed_cex :
    validateSQLBasic "SELECT ( FROM t" = some (SQLValidationError.unbalancedParens 1 0) ∧
    askExecutedSQL "SELECT ( FROM t" = some "SELECT ( FROM t" := by
  constructor
  · decide
  · decide

/-- Claim C4 (amended): a `validateSQLBasic` failure is only logged
("Continue anyway - let the database provide the real error"); whenever the
guard layer accepts, the statement (after the expensive-query rewrite) is
executed even though it failed structural sanity.  Only the
mutating-keyword/multi-statement guard short-circuits the ask pipeline. -/
theorem c4_malformed_still_executed (sql : String)
    (_hv : validateSQLBasic sql ≠ none) (hg : guardReadOnly sql = none) :
    askExecutedSQL sql =
      some (if isExpensiveQuery sql then simplifyExpensiveQuery sql "" else sql) := by
  unfold askExecutedSQL
  rw [hg]

/-- Witness for C4 (amended) at the concrete malformed statement. -/
theorem c4_malformed_still_executed_witness :
    askExecutedSQL "SELECT ( FROM t" = some "SELECT ( FROM t" := by
  have h := c4_malformed_still_executed "SELECT ( FROM t" (by decide) (by decide)
  rw [h]
  decide

/-! ## Claim C5: limit enforcement in the executor -/

/-- Claim C5: a statement without a `LIMIT <n>` clause is rewritten to
`WITH q AS (<sql>) SELECT * FROM q LIMIT <cap>` before execution — so under
the (external) database semantics of `LIMIT`, modelled by the hypothesis
`hdb`, a single `runReadOnlyQuery` call returns at most `cap` rows — while a
statement that already matches `LIMIT <n>` is executed unchanged. -/
theorem c5_limit_enforcement {α : Type} (db : String → List α) (sql : String) (limit : Int)
    (hdb : ∀ s (n : Int),
      (db ("WITH q AS (" ++ s ++ ") SELECT * FROM q LIMIT " ++ toString n)).length ≤ n.toNat) :
    (hasLimitClause sql = false →
      runReadOnlyQueryRows db sql limit =
        db ("WITH q AS (" ++ sql ++ ") SELECT * FROM q LIMIT " ++ toString limit) ∧
      (runReadOnlyQueryRows db sql limit).length ≤ limit.toNat) ∧
    (hasLimitClause sql = true → runReadOnlyQueryRows db sql limit = db sql) := by
  constructor
  · intro h
    constructor
    · simp [runReadOnlyQueryRows, limitWrapSQL, h]
    · simpa [runReadOnlyQueryRows, limitWrapSQL, h] using hdb sql limit
  · intro h
    simp [runReadOnlyQueryRows, limitWrapSQL, h]

/-- Witness for C5: both branches at concrete inputs, under a trivial
database model. -/
theorem c5_limit_enforcement_witness :
    (runReadOnlyQueryRows (fun _ => ([] : List Nat)) "SELECT 1" 5).length ≤ (5 : Int).toNat ∧
    runReadOnlyQueryRows (fun _ => ([] : List Nat)) "SELECT 1 LIMIT 3" 5 = [] := by
  constructor
  · exact ((c5_limit_enforcement (fun _ => ([] : List Nat)) "SELECT 1" 5
      (fun s n => by simp)).1 (by decide)).2
  · exact (c5_limit_enforcement (fun _ => ([] : List Nat)) "SELECT 1 LIMIT 3" 5
      (fun s n => by simp)).2 (by decide)


theorem fetchPages_length_le {α : Type} (allRows : List α) (P : Nat) :
    ∀ (fuel start : Nat), (fetchPages allRows P start fuel).length ≤ fuel := by
  intro fuel
  induction fuel with
  | zero =>
    intro start
    simp [fetchPages]
  | succ n ih =>
    intro start
    simp only [fetchPages]
    split
    · simp
    · simpa using Nat.succ_le_succ (ih (start + 1))

theorem fetchPages_rows_le {α : Type} (allRows : List α) (P : Nat) :
    ∀ (fuel start : Nat), ∀ pg ∈ fetchPages allRows P start fuel, pg.rows.length ≤ P := by
  intro fuel
  induction fuel with
  | zero =>
    intro start pg h
    simp [fetchPages] at h
  | succ n ih =>
    intro start pg h
    simp only [fetchPages, List.mem_cons] at h
    rcases h with h1 | h2
    · subst h1
      simp only [List.length_take]
      exact Nat.min_le_left P _
    · split at h2
      · simp at h2
      · exact ih (start + 1) pg h2

theorem fetchPages_page_index {α : Type} (allRows : List α) (P : Nat) :
    ∀ (fuel start i : Nat), i < (fetchPages allRows P start fuel).length →
      ((fetchPages allRows P start fuel).getD i default).page = start + i := by
  intro fuel
  induction fuel with
  | zero =>
    intro start i h
    simp [fetchPages] at h
  | succ n ih =>
    intro start i h
    match i with
    | 0 =>
      simp [fetchPages]
    | i + 1 =>
      by_cases hfull : (List.take P (List.drop (start * P) allRows)).length < P
      · exfalso
        simp only [fetchPages, if_pos hfull, List.length_cons, List.length_nil] at h
        omega
      · simp only [fetchPages, if_neg hfull, List.length_cons, List.getD_cons_succ] at h ⊢
        have hrec := ih (start + 1) (i) (by omega)
        rw [hrec]
        omega

theorem fetchPages_full_unless_last {α : Type} (allRows : List α) (P : Nat) :
    ∀ (fuel start i : Nat), i + 1 < (fetchPages allRows P start fuel).length →
      ((fetchPages allRows P start fuel).getD i default).rows.length = P := by
  intro fuel
  induction fuel with
  | zero =>
    intro start i h
    simp [fetchPages] at h
  | succ n ih =>
    intro start i h
    by_cases hfull : (List.take P (List.drop (start * P) allRows)).length < P
    · exfalso
      simp only [fetchPages, if_pos hfull, List.length_cons, List.length_nil] at h
      omega
    · match i with
      | 0 =>
        simp only [fetchPages, if_neg hfull, List.getD_cons_zero]
        simp only [List.length_take] at hfull ⊢
        omega
      | i + 1 =>
        simp only [fetchPages, if_neg hfull, List.length_cons, List.getD_cons_succ] at h ⊢
        exact ih (start + 1) i (by omega)



/-- Claim C6: for a streaming run with positive page size `P` and positive
max-pages bound `M` (as at every call site), the engine computes the total
page count as the ceiling `(totalRows + P - 1) / P`, fetches pages indexed
`0, 1, ...` for at most `min M totalPages` pages, every returned page holds
at most `P` rows, every page other than the last holds exactly `P` rows (so a
short page ends the stream), and zero total rows yield no pages. -/
theorem c6_streaming_spec {α : Type} (allRows : List α) (M P : Int)
    (hM : 0 < M) (hP : 0 < P) :
    (runStreamingQuery allRows M P).2 = allRows.length ∧
    (runStreamingQuery allRows M P).1.length ≤
      min M.toNat ((allRows.length + P.toNat - 1) / P.toNat) ∧
    (∀ pg ∈ (runStreamingQuery allRows M P).1, pg.rows.length ≤ P.toNat) ∧
    (∀ i, i + 1 < (runStreamingQuery allRows M P).1.length →
      ((runStreamingQuery allRows M P).1.getD i default).rows.length = P.toNat) ∧
    (∀ i, i < (runStreamingQuery allRows M P).1.length →
      ((runStreamingQuery allRows M P).1.getD i default).page = i) ∧
    (allRows.length = 0 → (runStreamingQuery allRows M P).1 = []) := by
  have hPP : ((P.toNat : Int)) = P := Int.toNat_of_nonneg hP.le
  have hnum : ((allRows.length : Int) + P - 1) =
      (((allRows.length + P.toNat - 1 : Nat)) : Int) := by omega
  have hdiv : Int.tdiv ((allRows.length : Int) + P - 1) P =
      (((allRows.length + P.toNat - 1) / P.toNat : Nat) : Int) := by
    rw [hnum]
    conv_lhs => rw [← hPP]
    exact (Int.ofNat_tdiv _ _).symm
  have hfuel : (minNonZero M (Int.tdiv ((allRows.length : Int) + P - 1) P)).toNat =
      min M.toNat ((allRows.length + P.toNat - 1) / P.toNat) := by
    rw [minNonZero_pos_eq_min _ _ hM, hdiv]
    have hq := Int.natCast_nonneg ((allRows.length + P.toNat - 1) / P.toNat)
    omega
  simp only [runStreamingQuery]
  refine ⟨?_, ?_, ?_, ?_, ?_, ?_⟩
  · trivial
  · rw [← hfuel]
    exact fetchPages_length_le allRows P.toNat _ 0
  · intro pg hm
    exact fetchPages_rows_le allRows P.toNat _ 0 pg hm
  · intro i h
    exact fetchPages_full_unless_last allRows P.toNat _ 0 i h
  · intro i h
    have hidx := fetchPages_page_index allRows P.toNat _ 0 i h
    simpa using hidx
  · intro h0
    have hz : (minNonZero M (Int.tdiv ((allRows.length : Int) + P - 1) P)).toNat = 0 := by
      rw [hfuel, h0]
      have h1 : 0 + P.toNat - 1 = P.toNat - 1 := by omega
      rw [h1, Nat.div_eq_of_lt (by omega)]
      omega
    rw [hz]
    rfl

/-- Witness for C6 at a concrete run: five rows, page size 2, bound 2. -/
theorem c6_streaming_spec_witness :
    (runStreamingQuery [10, 20, 30, 40, 50] 2 2).2 = 5 ∧
    (runStreamingQuery [10, 20, 30, 40, 50] 2 2).1.length ≤
      min (Int.toNat 2) ((5 + Int.toNat 2 - 1) / Int.toNat 2) := by
  have h := c6_streaming_spec [10, 20, 30, 40, 50] 2 2 (by decide) (by decide)
  exact ⟨h.1, by simpa using h.2.1⟩


/-! ## Claim C7: structured recovery of exactly three database error classes -/

/-- Claim C7: during ask, exactly the three recognized classes of database
execution errors — column-not-found, relation-not-found (tested in source
order), and syntax error — are converted into a structured success whose
`rows` field is the single record with the expected `error`/`suggestion`/
`original_sql` fields and whose `note` is annotated with the failure kind;
every other database execution error propagates to the caller as a failure
carrying the original message. -/
theorem c7_ask_error_recovery (sql note msg : String) :
    (msgColumnNotFound msg = true →
      askErrorRecovery sql note msg = Except.ok
        { sql := sql
          rows := [{ error := "Column not found in generated query"
                     suggestion := "Try rephrasing your question or ask about specific tables"
                     original_sql := sql }]
          note := note ++ " (query failed - column not found)" }) ∧
    (msgColumnNotFound msg = false → msgRelationNotFound msg = true →
      askErrorRecovery sql note msg = Except.ok
        { sql := sql
          rows := [{ error := "Table not found in generated query"
                     suggestion := "Check available tables or rephrase your question"
                     original_sql := sql }]
          note := note ++ " (query failed - table not found)" }) ∧
    (msgColumnNotFound msg = false → msgRelationNotFound msg = false →
      msgSyntaxError msg = true →
      askErrorRecovery sql note msg = Except.ok
        { sql := sql
          rows := [{ error := "SQL syntax error in generated query"
                     suggestion := "Try rephrasing your question more clearly"
                     original_sql := sql }]
          note := note ++ " (query failed - syntax error)" }) ∧
    (msgColumnNotFound msg = false → msgRelationNotFound msg = false →
      msgSyntaxError msg = false →
      askErrorRecovery sql note msg = Except.error msg) := by
  refine ⟨?_, ?_, ?_, ?_⟩
  · intro h1
    simp [askErrorRecovery, h1]
  · intro h1 h2
    simp [askErrorRecovery, h1, h2]
  · intro h1 h2 h3
    simp [askErrorRecovery, h1, h2, h3]
  · intro h1 h2 h3
    simp [askErrorRecovery, h1, h2, h3]

/-- Witness for C7: a column-not-found message is converted into the
structured record, and an unrecognized message propagates unchanged. -/
theorem c7_ask_error_recovery_witness :
    askErrorRecovery "SELECT user_id FROM order_items" "model=gpt-4o-mini"
        "ERROR: column \"user_id\" does not exist (SQLSTATE 42703)" = Except.ok
      { sql := "SELECT user_id FROM order_items"
        rows := [{ error := "Column not found in generated query"
                   suggestion := "Try rephrasing your question or ask about specific tables"
                   original_sql := "SELECT user_id FROM order_items" }]
        note := "model=gpt-4o-mini (query failed - column not found)" } ∧
    askErrorRecovery "SELECT 1" "model=gpt-4o-mini" "deadlock detected" =
      Except.error "deadlock detected" := by
  constructor
  · exact (c7_ask_error_recovery "SELECT user_id FROM order_items" "model=gpt-4o-mini"
      "ERROR: column \"user_id\" does not exist (SQLSTATE 42703)").1 (by decide)
  · exact (c7_ask_error_recovery "SELECT 1" "model=gpt-4o-mini"
      "deadlock detected").2.2.2 (by decide) (by decide) (by decide)

/-! ## Claim C8: sanitizer acceptance condition -/

/-- The probe input for the C8 counterexample: 9 999 ASCII characters
followed by one two-byte character, i.e. 10 000 characters but 10 001 UTF-8
bytes. -/
def oversizeProbe : String := String.mk (List.replicate 9999 'a' ++ ['\u00e9'])

theorem goTrimSpace_probe (n : Nat) :
    goTrimSpace (List.replicate n 'a' ++ ['\u00e9']) = List.replicate n 'a' ++ ['\u00e9'] := by
  unfold goTrimSpace
  have h1 : (List.replicate n 'a' ++ ['\u00e9']).dropWhile goIsSpace =
      List.replicate n 'a' ++ ['\u00e9'] := by
    cases n with
    | zero =>
      simp only [List.replicate, List.nil_append]
      rw [List.dropWhile_cons_of_neg (by decide)]
    | succ m =>
      rw [List.replicate_succ, List.cons_append, List.dropWhile_cons_of_neg (by decide)]
  rw [h1]
  have h2 : (List.replicate n 'a' ++ ['\u00e9']).reverse =
      '\u00e9' :: (List.replicate n 'a').reverse := by
    simp [List.reverse_append]
  rw [h2, List.dropWhile_cons_of_neg (by decide), ← h2, List.reverse_reverse]

theorem utf8Len_probe (n : Nat) :
    utf8Len (List.replicate n 'a' ++ ['\u00e9']) = n + 2 := by
  rw [utf8Len_append, utf8Len_replicate]
  have h1 : Char.utf8Size 'a' = 1 := by decide
  have h2 : utf8Len ['\u00e9'] = 2 := by decide
  rw [h1, h2]
  omega

theorem probe_ne_empty (n : Nat) :
    (List.replicate n 'a' ++ ['\u00e9']).isEmpty = false := by
  simp

/-- Counterexample to C8 as stated: `oversizeProbe` trims to a non-empty
question of exactly 10 000 characters — so under the claim's reading
(rejection only when empty or longer than 10 000 characters) it must be
accepted — yet `sanitizeInput` rejects it, because the source compares Go's
`len` (UTF-8 bytes, here 10 001) against the limit, not characters. -/
theorem c8_sanitize_cex :
    (sanitizeInput oversizeProbe).isSome = true ∧
    (goTrimSpace oversizeProbe.data).isEmpty = false ∧
    (goTrimSpace oversizeProbe.data).length = 10000 := by
  refine ⟨?_, ?_, ?_⟩
  · simp only [sanitizeInput]
    rw [show oversizeProbe.data = List.replicate 9999 'a' ++ ['\u00e9'] from rfl]
    rw [goTrimSpace_probe 9999, probe_ne_empty 9999, utf8Len_probe 9999]
    rfl
  · rw [show oversizeProbe.data = List.replicate 9999 'a' ++ ['\u00e9'] from rfl,
        goTrimSpace_probe 9999]
    exact probe_ne_empty 9999
  · rw [show oversizeProbe.data = List.replicate 9999 'a' ++ ['\u00e9'] from rfl,
        goTrimSpace_probe 9999]
    simp only [List.length_append, List.length_replicate, List.length_cons,
      List.length_nil]

/-- Claim C8 (amended): `sanitizeInput` rejects a question exactly when,
after trimming surrounding whitespace, it is empty or longer than 10 000
UTF-8 bytes (Go `len`); the watch-list scan only yields the warning list
`sanitizeWarnings` and never influences acceptance. -/
theorem c8_sanitize_amended (s : String) :
    (sanitizeInput s = none ↔
      (goTrimSpace s.data).isEmpty = false ∧ utf8Len (goTrimSpace s.data) ≤ maxQueryLength) ∧
    sanitizeWarnings s =
      suspiciousPatterns.filter (fun p => containsSubstrB (lowerList (goTrimSpace s.data)) p.data) := by
  refine ⟨?_, rfl⟩
  simp only [sanitizeInput]
  by_cases he : (goTrimSpace s.data).isEmpty
  · rw [if_pos he]
    constructor
    · intro hcontra
      simp at hcontra
    · intro hand
      rw [he] at hand
      simp at hand
  · rw [if_neg he]
    by_cases hl : maxQueryLength < utf8Len (goTrimSpace s.data)
    · rw [if_pos hl]
      constructor
      · intro hcontra
        simp at hcontra
      · intro hand
        omega
    · rw [if_neg hl]
      constructor
      · intro _
        refine ⟨?_, by omega⟩
        cases hb : (goTrimSpace s.data).isEmpty
        · rfl
        · exact absurd hb he
      · intro _
        rfl

/-- Witness for C8 (amended): a short question is accepted. -/
theorem c8_sanitize_amended_witness :
    sanitizeInput "how many users are there" = none :=
  (c8_sanitize_amended "how many users are there").1.mpr (by constructor <;> decide)

/-! ## Claim C9: the row ceiling sent to the model -/

/-- Counterexample to C9 as stated: with `max_rows = 7` (and default
page size) the value passed to `generateSQL` is `70`, not the caller's
bound `7`. -/
theorem c9_prompt_ceiling_cex :
    askPromptMaxRows 7 0 = 70 ∧ (70 : Int) ≠ 7 := by
  constructor
  · decide
  · decide

/-- Claim C9 (amended): the row-limit ceiling embedded in the system message
is ten times the effective page size (`page_size` clamped into `[1, 50]`,
further clamped by `max_rows` when positive) — hence at most 500 and, for a
positive `max_rows`, at most ten times the caller's bound — rather than being
equal to the caller's `max_rows`. -/
theorem c9_prompt_ceiling (mr ps : Int) :
    askPromptMaxRows mr ps = effectivePageSize mr ps * 10 ∧
    0 < effectivePageSize mr ps ∧ effectivePageSize mr ps ≤ 50 ∧
    (0 < mr → askPromptMaxRows mr ps ≤ 10 * mr) := by
  have hps := minNonZero_pos_le ps 50 (by decide)
  refine ⟨rfl, ?_, ?_, ?_⟩
  · unfold effectivePageSize
    split
    · exact (minNonZero_pos_le mr (minNonZero ps 50) hps.1).1
    · exact hps.1
  · unfold effectivePageSize
    split
    · exact le_trans (minNonZero_pos_le mr (minNonZero ps 50) hps.1).2 hps.2
    · exact hps.2
  · intro hmr
    unfold askPromptMaxRows effectivePageSize
    rw [if_pos hmr]
    have := minNonZero_le_left mr (minNonZero ps 50) hmr
    omega

/-- Witness for C9 (amended) at the counterexample's input. -/
theorem c9_prompt_ceiling_witness :
    askPromptMaxRows 7 0 ≤ 10 * 7 :=
  (c9_prompt_ceiling 7 0).2.2.2 (by decide)

/-! ## Claim C10: stream parameter clamping and its consequences -/

/-- Claim C10: `handleStream` clamps the caller's `max_pages` and `page_size`
through `minNonZero` against the defaults 10 and 50 — any value that is zero,
negative, or above the default is replaced by the default — so no stream
response contains more than 10 pages and no page holds more than 50 rows,
regardless of the caller's arguments. -/
theorem c10_stream_clamped {α : Type} (allRows : List α) (mp ps : Int) :
    (handleStreamPages allRows mp ps).length ≤ 10 ∧
    (∀ pg ∈ handleStreamPages allRows mp ps, pg.rows.length ≤ 50) ∧
    (mp ≤ 0 ∨ 10 < mp → minNonZero mp 10 = 10) ∧
    (0 < mp ∧ mp ≤ 10 → minNonZero mp 10 = mp) ∧
    (ps ≤ 0 ∨ 50 < ps → minNonZero ps 50 = 50) ∧
    (0 < ps ∧ ps ≤ 50 → minNonZero ps 50 = ps) := by
  have hM := minNonZero_pos_le mp 10 (by decide)
  have hP := minNonZero_pos_le ps 50 (by decide)
  refine ⟨?_, ?_, ?_, ?_, ?_, ?_⟩
  · unfold handleStreamPages runStreamingQuery
    refine le_trans (fetchPages_length_le allRows _ _ 0) ?_
    have hle := minNonZero_le_left (minNonZero mp 10)
      (Int.tdiv ((allRows.length : Int) + minNonZero ps 50 - 1) (minNonZero ps 50)) hM.1
    omega
  · intro pg hm
    unfold handleStreamPages runStreamingQuery at hm
    refine le_trans (fetchPages_rows_le allRows _ _ 0 pg hm) ?_
    omega
  · intro h
    unfold minNonZero
    split_ifs <;> omega
  · intro h
    unfold minNonZero
    split_ifs <;> omega
  · intro h
    unfold minNonZero
    split_ifs <;> omega
  · intro h
    unfold minNonZero
    split_ifs <;> omega

/-- Witness for C10: a caller asking for 1 000 000 pages of 1 000 000 rows
each still gets at most 10 pages. -/
theorem c10_stream_clamped_witness :
    (handleStreamPages ([0] : List Nat) 1000000 1000000).length ≤ 10 :=
  (c10_stream_clamped ([0] : List Nat) 1000000 1000000).1

end Pgmcp
